import Mathlib

/-!
Verification of the core of the `sdmx` client library:

* the XML tag ↔ class correspondence registry (`sdmx/format/xml.py`),
* the URN codec (`sdmx/urn.py`, modelled from the specification since only
  its tests are available),
* the source registry (`sdmx/source/__init__.py`).

Python classes are embedded as an enumerated inductive type; the ordered
correspondence table, the qualified-name constructor and the two cached
lookups are translated directly from the source.
-/

set_option maxHeartbeats 1600000

namespace SdmxFormatXml

/-- The message and model classes that appear in the tag correspondence
table of `sdmx/format/xml.py`, plus `ItemScheme` (an abstract container
class that is never serialized and has no entry in the table). -/
inductive SdmxClass where
  | DataMessage
  | ErrorMessage
  | StructureMessage
  | Agency
  | AttributeDescriptor
  | DataAttribute
  | DataflowDefinition
  | DataStructureDefinition
  | Dimension
  | DimensionDescriptor
  | GroupDimensionDescriptor
  | GroupKey
  | Key
  | MeasureDescriptor
  | SeriesKey
  | StructureUsage
  | AgencyScheme
  | Categorisation
  | Category
  | CategoryScheme
  | Code
  | Codelist
  | Concept
  | ConceptScheme
  | ContentConstraint
  | DataConsumer
  | DataConsumerScheme
  | DataProvider
  | DataProviderScheme
  | PrimaryMeasure
  | MeasureDimension
  | TimeDimension
  | ItemScheme
  deriving DecidableEq, Fintype, Repr

/-- A fully qualified XML name: an optional namespace URI and a local
name (mirrors `lxml.etree.QName`, which compares by URI and local name). -/
structure QName where
  ns : Option String
  name : String
  deriving DecidableEq, Repr

/-- Base URI of the SDMX-ML 2.1 namespaces (`_base_ns`). -/
def _base_ns : String := "http://www.sdmx.org/resources/sdmxml/schemas/v2_1"

/-- The namespace prefix table `NS`: prefix → namespace URI (the empty
prefix maps to no namespace). -/
def NS : List (String × Option String) :=
  [ ("", none),
    ("com", some (_base_ns ++ "/common")),
    ("data", some (_base_ns ++ "/data/structurespecific")),
    ("str", some (_base_ns ++ "/structure")),
    ("mes", some (_base_ns ++ "/message")),
    ("gen", some (_base_ns ++ "/data/generic")),
    ("footer", some (_base_ns ++ "/message/footer")),
    ("xml", some "http://www.w3.org/XML/1998/namespace"),
    ("xsi", some "http://www.w3.org/2001/XMLSchema-instance") ]

/-- `qname(ns, name)`: the fully-qualified tag `name` in the namespace
designated by prefix `ns` (looked up in `NS`). -/
def qname (ns nm : String) : QName :=
  ⟨(NS.lookup ns).getD none, nm⟩

open SdmxClass in
/-- The ordered correspondence `_CLS_TAG` of message and model classes
with XML tag names, entry for entry as declared in the source. -/
def _CLS_TAG : List (SdmxClass × QName) :=
  [ (DataMessage, qname "mes" "GenericData"),
    (DataMessage, qname "mes" "GenericTimeSeriesData"),
    (DataMessage, qname "mes" "StructureSpecificData"),
    (DataMessage, qname "mes" "StructureSpecificTimeSeriesData"),
    (ErrorMessage, qname "mes" "Error"),
    (StructureMessage, qname "mes" "Structure"),
    (Agency, qname "str" "Agency"),  -- Order matters
    (Agency, qname "mes" "Receiver"),
    (Agency, qname "mes" "Sender"),
    (AttributeDescriptor, qname "str" "AttributeList"),
    (DataAttribute, qname "str" "Attribute"),
    (DataflowDefinition, qname "str" "Dataflow"),
    (DataStructureDefinition, qname "str" "DataStructure"),
    (DataStructureDefinition, qname "com" "Structure"),
    (DataStructureDefinition, qname "str" "Structure"),
    (Dimension, qname "str" "Dimension"),  -- Order matters
    (Dimension, qname "str" "DimensionReference"),
    (Dimension, qname "str" "GroupDimension"),
    (DimensionDescriptor, qname "str" "DimensionList"),
    (GroupDimensionDescriptor, qname "str" "Group"),
    (GroupDimensionDescriptor, qname "str" "AttachmentGroup"),
    (GroupKey, qname "gen" "GroupKey"),
    (Key, qname "gen" "ObsKey"),
    (MeasureDescriptor, qname "str" "MeasureList"),
    (SeriesKey, qname "gen" "SeriesKey"),
    (StructureUsage, qname "com" "StructureUsage") ]
  ++ [ (AgencyScheme, qname "str" "AgencyScheme"),
    (Categorisation, qname "str" "Categorisation"),
    (Category, qname "str" "Category"),
    (CategoryScheme, qname "str" "CategoryScheme"),
    (Code, qname "str" "Code"),
    (Codelist, qname "str" "Codelist"),
    (Concept, qname "str" "Concept"),
    (ConceptScheme, qname "str" "ConceptScheme"),
    (ContentConstraint, qname "str" "ContentConstraint"),
    (DataConsumer, qname "str" "DataConsumer"),
    (DataConsumerScheme, qname "str" "DataConsumerScheme"),
    (DataProvider, qname "str" "DataProvider"),
    (DataProviderScheme, qname "str" "DataProviderScheme"),
    (PrimaryMeasure, qname "str" "PrimaryMeasure"),
    (MeasureDimension, qname "str" "MeasureDimension"),
    (TimeDimension, qname "str" "TimeDimension") ]

/-- `class_for_tag(tag)`: return the message or model class for an XML
tag, i.e. the first class paired with `tag` in `_CLS_TAG`, or `none`. -/
def class_for_tag (tag : QName) : Option SdmxClass :=
  ((_CLS_TAG.filter fun ct => decide (ct.2 = tag)).head?).map Prod.fst

/-- `tag_for_class(cls)`: return the XML tag for a message or model
class, i.e. the first tag paired with `cls` in `_CLS_TAG`, or `none`. -/
def tag_for_class (cls : SdmxClass) : Option QName :=
  ((_CLS_TAG.filter fun ct => decide (ct.1 = cls)).head?).map Prod.snd

end SdmxFormatXml

namespace SdmxSource

/-- `DataContentType`: the type of data returned by a source. -/
inductive DataContentType where
  | XML
  | JSON
  deriving DecidableEq, Repr

/-- SDMX-REST endpoint names (`sdmx.rest.Resource`). The members listed
are those named in the class-level `Source.supports` default of
`sdmx/source/__init__.py`, plus `data` (also named there) and the
`codelist` and `dataflow` endpoints referenced by its documentation. -/
inductive Resource where
  | data
  | actualconstraint
  | allowedconstraint
  | attachementconstraint
  | customtypescheme
  | dataconsumerscheme
  | dataproviderscheme
  | hierarchicalcodelist
  | metadata
  | metadataflow
  | metadatastructure
  | namepersonalisationscheme
  | organisationunitscheme
  | process
  | reportingtaxonomy
  | rulesetscheme
  | schema
  | transformationscheme
  | userdefinedoperatorscheme
  | vtlmappingscheme
  | codelist
  | dataflow
  deriving DecidableEq, Fintype, Repr

/-- A key of the `supports` mapping: a `Resource` value or one of the two
additional string keys `'preview'` and `'structure-specific data'`. -/
inductive Feature where
  | res (r : Resource)
  | preview
  | structureSpecificData
  deriving DecidableEq, Fintype, Repr

open Resource in
/-- The class-level default of the `Source.supports` mapping: `data` is
supported, nineteen named endpoints are not, every other key is absent. -/
def defaultSupports : Feature → Option Bool
  | .res data => some true
  | .res actualconstraint => some false
  | .res allowedconstraint => some false
  | .res attachementconstraint => some false
  | .res customtypescheme => some false
  | .res dataconsumerscheme => some false
  | .res dataproviderscheme => some false
  | .res hierarchicalcodelist => some false
  | .res metadata => some false
  | .res metadataflow => some false
  | .res metadatastructure => some false
  | .res namepersonalisationscheme => some false
  | .res organisationunitscheme => some false
  | .res process => some false
  | .res reportingtaxonomy => some false
  | .res rulesetscheme => some false
  | .res schema => some false
  | .res transformationscheme => some false
  | .res userdefinedoperatorscheme => some false
  | .res vtlmappingscheme => some false
  | _ => none

/-- `dict.update`: the second mapping's entries override the first's. -/
def dictUpdate (base upd : Feature → Option Bool) : Feature → Option Bool :=
  fun f => match upd f with
    | some b => some b
    | none => base f

/-- The `supports` mapping after `Source.__init__`: the class default is
updated with the `supports` keyword argument, then `setdefault` fills
every remaining `Resource`, `'preview'` and `'structure-specific data'`
key with `data_content_type == DataContentType.XML`. -/
def supportsAfterInit (dct : DataContentType) (input : Feature → Option Bool)
    (f : Feature) : Bool :=
  match dictUpdate defaultSupports input f with
  | some b => b
  | none => decide (dct = DataContentType.XML)

/-- A source configuration, with the fields of `Source` that the
registry stores (hooks and capability details aside). -/
structure SourceCfg where
  id : String
  url : String
  name : String
  data_content_type : DataContentType := DataContentType.XML
  deriving DecidableEq, Repr

/-- The process-wide `sources` registry: a Python `dict` from source id
to configuration, i.e. an insertion-ordered list of unique-key pairs. -/
def Registry := List (String × SourceCfg)

/-- `sources[k] = v`: replace the entry for `k` in place, or append a new
entry at the end. -/
def dictSet : List (String × SourceCfg) → String → SourceCfg →
    List (String × SourceCfg)
  | [], k, v => [(k, v)]
  | p :: rest, k, v =>
    if p.1 = k then (k, v) :: rest else p :: dictSet rest k v

/-- `sources.get(k)`: look up the entry for `k`. -/
def dictGet : List (String × SourceCfg) → String → Option SourceCfg
  | [], _ => none
  | p :: rest, k => if p.1 = k then some p.2 else dictGet rest k

/-- `add_source(info, id, override)` acting on an explicit registry
state: resolve the id (`id or info['id']`, so an empty or absent `id`
argument falls back to the configuration's own id), raise `ValueError`
when the id is already defined and `override` is false, and otherwise
store the configuration under the id. Returns the new registry and the
outcome. -/
def add_source (reg : List (String × SourceCfg)) (info : SourceCfg)
    (id : Option String := none) (override : Bool := false) :
    List (String × SourceCfg) × Except String Unit :=
  let idv := match id with
    | some s => if s = "" then info.id else s
    | none => info.id
  if override = false ∧ (dictGet reg idv).isSome then
    (reg, Except.error
      ("Data source '" ++ idv ++ "' already defined; use override=True"))
  else
    (dictSet reg idv info, Except.ok ())

end SdmxSource

namespace SdmxUrn

/-- Modelled from the spec: the `sdmx.model.Agency` maintainer object
(the module `sdmx/model.py` is not available); only its id is relevant
to URN construction. -/
structure Agency where
  id : String
  deriving DecidableEq, Repr

/-- Modelled from the spec: a maintainable `sdmx.model.Codelist` — an
artifact with an owning agency (maintainer), an optional version, and
contained items. -/
structure Codelist where
  id : String
  maintainer : Option Agency := none
  version : Option String := none
  items : List String := []
  deriving DecidableEq, Repr

/-- Modelled from the spec: a `sdmx.model.Code` item, nested inside a
codelist via its `parent` reference (set when the code is appended to
the codelist). -/
structure Code where
  id : String
  parent : Option Codelist := none
  deriving DecidableEq, Repr

/-- Modelled from the spec: the display representation of a code, as the
error messages of `test_urn.py` show it (`<Code BAR>`). -/
def Code.display (c : Code) : String :=
  "<Code " ++ c.id ++ ">"

/-- Modelled from the spec: the display representation of a codelist, as
the error messages of `test_urn.py` show it (`<Codelist FOO (1 items)>`,
and with the maintainer resolved `<Codelist BAZ:FOO (1 items)>`). -/
def Codelist.display (cl : Codelist) : String :=
  "<Codelist "
    ++ (match cl.maintainer with
        | some m => m.id ++ ":"
        | none => "")
    ++ cl.id ++ " (" ++ toString cl.items.length ++ " items)>"

/-- An object `make` accepts: a maintainable codelist or a code item. -/
inductive SdmxObject where
  | code (c : Code)
  | codelist (cl : Codelist)
  deriving DecidableEq, Repr

/-- Modelled from the spec: the static type → package-qualified class
name table used for the URN's `<package>.<ClassName>` segment. -/
def packageClassSegment : SdmxObject → String
  | .code _ => "codelist.Code"
  | .codelist _ => "codelist.Codelist"

/-- The `(<Version>)` segment, empty when the version is absent. -/
def versionSegment : Option String → String
  | some v => "(" ++ v ++ ")"
  | none => ""

/-- Modelled from the spec: `sdmx.urn.make` (the module `sdmx/urn.py` is
not available; behaviour and error messages follow §4.2 of the spec and
`test_urn.py`). Constructs the URN of a maintainable artifact or of an
item within one; fails when the item has no maintainable parent, when
the maintainable has no maintainer, or — in strict mode — when it has
no version. With `strict = false` a missing version is omitted from the
output. -/
def make (obj : SdmxObject) (strict : Bool := false) : Except String String :=
  match obj with
  | .code c =>
    match c.parent with
    | none =>
      Except.error ("Neither " ++ c.display ++ " nor None are maintainable")
    | some cl =>
      match cl.maintainer with
      | none =>
        Except.error
          ("Cannot construct URN for " ++ cl.display ++ " without maintainer")
      | some m =>
        if strict = true ∧ cl.version = none then
          Except.error
            ("Cannot construct URN for " ++ cl.display ++ " without version")
        else
          Except.ok ("urn:sdmx:org.sdmx.infomodel." ++ packageClassSegment obj
            ++ "=" ++ m.id ++ ":" ++ cl.id ++ versionSegment cl.version
            ++ "." ++ c.id)
  | .codelist cl =>
    match cl.maintainer with
    | none =>
      Except.error
        ("Cannot construct URN for " ++ cl.display ++ " without maintainer")
    | some m =>
      if strict = true ∧ cl.version = none then
        Except.error
          ("Cannot construct URN for " ++ cl.display ++ " without version")
      else
        Except.ok ("urn:sdmx:org.sdmx.infomodel." ++ packageClassSegment obj
          ++ "=" ++ m.id ++ ":" ++ cl.id ++ versionSegment cl.version)

/-- The fields of a parsed URN (the named groups of the URN pattern). -/
structure URNFields where
  package : String
  cls : String
  agency : Option String
  id : String
  version : Option String
  item_id : Option String
  deriving DecidableEq, Repr

/-- The fixed leading text of every SDMX URN. -/
def urnPrefixText : String := "urn:sdmx:org.sdmx.infomodel."

/-- Strip an expected prefix from a character list, or fail. -/
def stripPrefixList : List Char → List Char → Option (List Char)
  | [], s => some s
  | _ :: _, [] => none
  | p :: ps, c :: cs => if p = c then stripPrefixList ps cs else none

/-- Modelled from the spec: the body of the URN grammar after the fixed
prefix, `<package>.<ClassName>=[<Agency>:]<ID>[(<Version>)][.<ItemID>]`,
parsed by strict left-to-right pattern matching with no recovery. -/
def parseBody (l : List Char) : Option URNFields :=
  let pkg := l.takeWhile fun c => c != '.'
  match l.dropWhile fun c => c != '.' with
  | '.' :: r1 =>
    let kls := r1.takeWhile fun c => c != '='
    match r1.dropWhile fun c => c != '=' with
    | '=' :: r2 =>
      let agySeg := r2.takeWhile fun c => c != ':' && c != '(' && c != '.'
      let (agency, r3) :=
        match r2.dropWhile fun c => c != ':' && c != '(' && c != '.' with
        | ':' :: r => (some agySeg, r)
        | _ => (none, r2)
      let idSeg := r3.takeWhile fun c => c != '(' && c != '.'
      match r3.dropWhile fun c => c != '(' && c != '.' with
      | '(' :: r4 =>
        let ver := r4.takeWhile fun c => c != ')'
        match r4.dropWhile fun c => c != ')' with
        | ')' :: r5 =>
          match r5 with
          | [] => some ⟨⟨pkg⟩, ⟨kls⟩, agency.map String.mk, ⟨idSeg⟩,
              some ⟨ver⟩, none⟩
          | '.' :: item => some ⟨⟨pkg⟩, ⟨kls⟩, agency.map String.mk, ⟨idSeg⟩,
              some ⟨ver⟩, some ⟨item⟩⟩
          | _ => none
        | _ => none
      | '.' :: item => some ⟨⟨pkg⟩, ⟨kls⟩, agency.map String.mk, ⟨idSeg⟩,
          none, some ⟨item⟩⟩
      | [] => some ⟨⟨pkg⟩, ⟨kls⟩, agency.map String.mk, ⟨idSeg⟩, none, none⟩
      | _ :: _ => none
    | _ => none
  | _ => none

/-- Modelled from the spec: `sdmx.urn.match` (the module `sdmx/urn.py` is
not available). Parses a URN string against the grammar
`urn:sdmx:org.sdmx.infomodel.<package>.<ClassName>=[<Agency>:]<ID>[(<Version>)][.<ItemID>]`
and fails with `ValueError("not a valid SDMX URN: ...")` for any text
that does not match. -/
def urn_match (s : String) : Except String URNFields :=
  match stripPrefixList urnPrefixText.data s.data with
  | some body =>
    match parseBody body with
    | some f => Except.ok f
    | none => Except.error ("not a valid SDMX URN: " ++ s)
  | none => Except.error ("not a valid SDMX URN: " ++ s)

/-- The per-field character constraints the URN grammar imposes on an
agency identifier: it ends at the first colon, parenthesis or dot. -/
def agencyOk (s : String) : Prop :=
  ∀ ch ∈ s.data, (ch != ':' && ch != '(' && ch != '.') = true

/-- The grammar constraint on an artifact identifier: it ends at the
first parenthesis or dot. -/
def idOk (s : String) : Prop :=
  ∀ ch ∈ s.data, (ch != '(' && ch != '.') = true

/-- The grammar constraint on a version: it ends at the first closing
parenthesis. -/
def versionOk (s : String) : Prop :=
  ∀ ch ∈ s.data, (ch != ')') = true

/-- All identifier fields of a codelist satisfy the grammar constraints
of the URN segment they are printed into. -/
def clPlain (cl : Codelist) : Prop :=
  idOk cl.id ∧ (∀ m, cl.maintainer = some m → agencyOk m.id) ∧
    (∀ v, cl.version = some v → versionOk v)

/-- All identifier fields of the object's maintainable satisfy the URN
grammar constraints. -/
def objPlain : SdmxObject → Prop
  | .code c => ∀ cl, c.parent = some cl → clPlain cl
  | .codelist cl => clPlain cl

/-- The agency (maintainer) identifier of the object's maintainable. -/
def objAgencyId : SdmxObject → Option String
  | .code c => (c.parent.bind Codelist.maintainer).map Agency.id
  | .codelist cl => cl.maintainer.map Agency.id

/-- The identifier of the object's maintainable artifact. -/
def objArtifactId : SdmxObject → Option String
  | .code c => c.parent.map Codelist.id
  | .codelist cl => some cl.id

/-- The version of the object's maintainable artifact. -/
def objVersion : SdmxObject → Option String
  | .code c => c.parent.bind Codelist.version
  | .codelist cl => cl.version

/-- The item identifier: the code's own id, absent for a maintainable. -/
def objItemId : SdmxObject → Option String
  | .code c => some c.id
  | .codelist _ => none

end SdmxUrn

namespace SdmxFormatXml

open SdmxClass

/-- C1: every class appearing more than once in `_CLS_TAG` (`DataMessage`,
`Agency`, `DataStructureDefinition`, `Dimension`,
`GroupDimensionDescriptor`) resolves via `tag_for_class` to the tag
declared first for it in the table: in particular `Agency` resolves to
`str:Agency` (not `mes:Receiver` or `mes:Sender`) and `Dimension` to
`str:Dimension` (not `str:DimensionReference` or `str:GroupDimension`). -/
theorem tag_for_class_first_declared :
    tag_for_class SdmxClass.DataMessage = some (qname "mes" "GenericData") ∧
    tag_for_class SdmxClass.Agency = some (qname "str" "Agency") ∧
    tag_for_class SdmxClass.DataStructureDefinition
      = some (qname "str" "DataStructure") ∧
    tag_for_class SdmxClass.Dimension = some (qname "str" "Dimension") ∧
    tag_for_class SdmxClass.GroupDimensionDescriptor
      = some (qname "str" "Group") ∧
    (∀ cls : SdmxClass, 1 < (_CLS_TAG.filter fun ct => ct.1 = cls).length →
      cls = SdmxClass.DataMessage ∨ cls = SdmxClass.Agency ∨
      cls = SdmxClass.DataStructureDefinition ∨ cls = SdmxClass.Dimension ∨
      cls = SdmxClass.GroupDimensionDescriptor) := by
  decide

/-- C1 witness: `Agency` has several entries in `_CLS_TAG`, so it is
among the five classes enumerated by the theorem. -/
theorem tag_for_class_first_declared_witness :
    SdmxClass.Agency = SdmxClass.DataMessage ∨
    SdmxClass.Agency = SdmxClass.Agency ∨
    SdmxClass.Agency = SdmxClass.DataStructureDefinition ∨
    SdmxClass.Agency = SdmxClass.Dimension ∨
    SdmxClass.Agency = SdmxClass.GroupDimensionDescriptor :=
  tag_for_class_first_declared.2.2.2.2.2 SdmxClass.Agency (by decide)

/-- C2: for every class with at least one entry in `_CLS_TAG`,
`class_for_tag` applied to `tag_for_class` of that class returns the
class itself; and `tag_for_class` of `ItemScheme`, which has no entry,
returns `none`. -/
theorem class_for_tag_round_trip :
    (∀ cls : SdmxClass, cls ∈ _CLS_TAG.map Prod.fst →
      (tag_for_class cls).bind class_for_tag = some cls) ∧
    tag_for_class SdmxClass.ItemScheme = none := by
  decide

/-- C2 witness: `Codelist` has an entry and round-trips. -/
theorem class_for_tag_round_trip_witness :
    (tag_for_class SdmxClass.Codelist).bind class_for_tag
      = some SdmxClass.Codelist :=
  class_for_tag_round_trip.1 SdmxClass.Codelist (by decide)

end SdmxFormatXml

namespace SdmxUrn

/-- C4: `make` on an item with no enclosing maintainable parent fails
with an error naming the item and stating that neither it nor its parent
is maintainable; on an item whose parent has no maintainer it fails with
an error naming the parent's display representation and stating that a
maintainer is required ("without maintainer"). -/
theorem make_requires_maintainable_parent (c : Code) (strict : Bool) :
    (c.parent = none →
      make (SdmxObject.code c) strict
        = Except.error ("Neither <Code " ++ c.id ++ "> nor None are maintainable")) ∧
    (∀ cl : Codelist, c.parent = some cl → cl.maintainer = none →
      make (SdmxObject.code c) strict
        = Except.error ("Cannot construct URN for <Codelist " ++ cl.id ++ " ("
            ++ toString cl.items.length ++ " items)> without maintainer")) := by
  constructor
  · intro hp
    simp [make, hp, Code.display, ← String.append_assoc]
    simp [String.append_assoc]
  · intro cl hp hm
    simp [make, hp, hm, Codelist.display, ← String.append_assoc]
    simp [String.append_assoc]

/-- C4 witness: the parentless code `BAR` of `test_urn.py`. -/
theorem make_requires_maintainable_parent_witness :
    make (SdmxObject.code { id := "BAR" }) false
      = Except.error "Neither <Code BAR> nor None are maintainable" :=
  (make_requires_maintainable_parent { id := "BAR" } false).1 rfl

/-- C5: when the maintainable parent has a maintainer but no version,
`make` with `strict = true` fails with an error naming the parent
(maintainer included) and stating that a version is required ("without
version"), while `make` with the default `strict = false` succeeds and
omits the version segment from the produced URN. -/
theorem make_strict_missing_version (cl : Codelist) (m : Agency) (c : Code)
    (hm : cl.maintainer = some m) (hv : cl.version = none)
    (hp : c.parent = some cl) :
    make (SdmxObject.code c) true
      = Except.error ("Cannot construct URN for <Codelist " ++ m.id ++ ":" ++ cl.id
          ++ " (" ++ toString cl.items.length ++ " items)> without version") ∧
    make (SdmxObject.codelist cl) true
      = Except.error ("Cannot construct URN for <Codelist " ++ m.id ++ ":" ++ cl.id
          ++ " (" ++ toString cl.items.length ++ " items)> without version") ∧
    make (SdmxObject.code c) false
      = Except.ok ("urn:sdmx:org.sdmx.infomodel.codelist.Code=" ++ m.id ++ ":"
          ++ cl.id ++ "." ++ c.id) ∧
    make (SdmxObject.codelist cl) false
      = Except.ok ("urn:sdmx:org.sdmx.infomodel.codelist.Codelist="
          ++ m.id ++ ":" ++ cl.id) := by
  refine ⟨?_, ?_, ?_, ?_⟩ <;>
    first
    | (simp [make, hp, hm, hv, Codelist.display, packageClassSegment,
        versionSegment, ← String.append_assoc]
       simp [String.append_assoc])
    | simp [make, hp, hm, hv, Codelist.display, packageClassSegment,
        versionSegment, ← String.append_assoc]

/-- C5 witness: the version-less codelist `BAZ:FOO` of `test_urn.py`. -/
theorem make_strict_missing_version_witness :
    make (SdmxObject.codelist ⟨"FOO", some ⟨"BAZ"⟩, none, ["BAR"]⟩) true
      = Except.error "Cannot construct URN for <Codelist BAZ:FOO (1 items)> without version" :=
  (make_strict_missing_version ⟨"FOO", some ⟨"BAZ"⟩, none, ["BAR"]⟩ ⟨"BAZ"⟩
      ⟨"X", some ⟨"FOO", some ⟨"BAZ"⟩, none, ["BAR"]⟩⟩ rfl rfl rfl).2.1

/-- C6: for the codelist `FOO` with maintainer `BAZ` and version `1.2.3`
containing the code `BAR`, `make` returns exactly the URN strings of
`test_urn.py` for the code and for the codelist. -/
theorem make_concrete_urn_strings :
    make (SdmxObject.code
        ⟨"BAR", some ⟨"FOO", some ⟨"BAZ"⟩, some "1.2.3", ["BAR"]⟩⟩)
      = Except.ok "urn:sdmx:org.sdmx.infomodel.codelist.Code=BAZ:FOO(1.2.3).BAR" ∧
    make (SdmxObject.codelist ⟨"FOO", some ⟨"BAZ"⟩, some "1.2.3", ["BAR"]⟩)
      = Except.ok "urn:sdmx:org.sdmx.infomodel.codelist.Codelist=BAZ:FOO(1.2.3)" :=
  ⟨rfl, rfl⟩

/-- C7: every failure of `urn_match` carries the offending string in a
"not a valid SDMX URN" error, and the URN of `test_urn.py` that lacks
the class-name segment after the package fails with exactly that
error. -/
theorem urn_match_malformed (s msg : String) :
    (urn_match s = Except.error msg → msg = "not a valid SDMX URN: " ++ s) ∧
    urn_match "urn:sdmx:org.sdmx.infomodel.codelist=BBK:CLA_BBK_COLLECTION(1.0)"
      = Except.error
          "not a valid SDMX URN: urn:sdmx:org.sdmx.infomodel.codelist=BBK:CLA_BBK_COLLECTION(1.0)" := by
  constructor
  · intro h
    cases hs : stripPrefixList urnPrefixText.data s.data with
    | none =>
      simp [urn_match, hs] at h
      exact h.symm
    | some body =>
      cases hb : parseBody body with
      | none =>
        simp [urn_match, hs, hb] at h
        exact h.symm
      | some f => simp [urn_match, hs, hb] at h
  · rfl

/-- C7 witness: a string that is not a URN at all fails with the
malformed-URN error carrying the string. -/
theorem urn_match_malformed_witness :
    "not a valid SDMX URN: abc" = "not a valid SDMX URN: " ++ "abc" :=
  (urn_match_malformed "abc" "not a valid SDMX URN: abc").1 rfl

end SdmxUrn

namespace SdmxSource

/-- Looking up a key just stored in the registry returns the stored
configuration. -/
theorem dictGet_dictSet_self (reg : List (String × SourceCfg)) (k : String)
    (v : SourceCfg) : dictGet (dictSet reg k v) k = some v := by
  induction reg with
  | nil => simp [dictSet, dictGet]
  | cons p rest ih =>
    by_cases hk : p.1 = k
    · simp [dictSet, dictGet, hk]
    · simp [dictSet, dictGet, hk, ih]

/-- C3 counterexample: the claim fails as stated — for an XML source
whose `supports` input omits `actualconstraint`, the constructed
configuration reports the capability as unsupported, because the
class-level `supports` preset (not the content-type default) supplies
its value. -/
theorem supports_claimed_default_counterexample :
    ¬ (∀ (dct : DataContentType) (input : Feature → Option Bool) (f : Feature),
        input f = none →
        supportsAfterInit dct input f = decide (dct = DataContentType.XML)) := by
  intro h
  have hx := h DataContentType.XML (fun _ => none) (Feature.res Resource.actualconstraint) rfl
  simp [supportsAfterInit, dictUpdate, defaultSupports] at hx

/-- C3 amended: a capability absent from the `supports` input receives
the content-type default (supported iff the source is XML) only when it
is also absent from the class-level `supports` preset; a preset
capability keeps its preset value (`data` supported, nineteen named
endpoints unsupported) regardless of content type. -/
theorem supports_default_amended (dct : DataContentType)
    (input : Feature → Option Bool) (f : Feature) (hf : input f = none) :
    (defaultSupports f = none →
      supportsAfterInit dct input f = decide (dct = DataContentType.XML)) ∧
    (∀ b : Bool, defaultSupports f = some b → supportsAfterInit dct input f = b) := by
  constructor
  · intro hd
    simp [supportsAfterInit, dictUpdate, hf, hd]
  · intro b hd
    simp [supportsAfterInit, dictUpdate, hf, hd]

/-- C3 witness: `codelist` has no preset, so a JSON source reports it
unsupported. -/
theorem supports_default_amended_witness :
    supportsAfterInit DataContentType.JSON (fun _ => none)
      (Feature.res Resource.codelist) = false := by
  have h := (supports_default_amended DataContentType.JSON (fun _ => none)
      (Feature.res Resource.codelist) rfl).1 rfl
  simpa using h

/-- C9: `add_source` with an id already in the registry and
`override = false` fails with the duplicate-source `ValueError`; with
`override = true` it succeeds, and looking the id up afterwards returns
the new configuration. -/
theorem add_source_duplicate_and_override (reg : List (String × SourceCfg))
    (cfg : SourceCfg) (id : String) (hdup : (dictGet reg id).isSome)
    (hne : id ≠ "") :
    (add_source reg cfg (some id) false).2
      = Except.error
          ("Data source '" ++ id ++ "' already defined; use override=True") ∧
    add_source reg cfg (some id) true = (dictSet reg id cfg, Except.ok ()) ∧
    dictGet (dictSet reg id cfg) id = some cfg := by
  refine ⟨?_, ?_, dictGet_dictSet_self reg id cfg⟩
  · simp [add_source, hne, hdup]
  · simp [add_source, hne]

/-- C9 witness: re-registering id `X` fails without `override` and
replaces the entry with it. -/
theorem add_source_duplicate_and_override_witness :
    (add_source [("X", ⟨"X", "u", "n", DataContentType.XML⟩)]
        ⟨"X", "u2", "n2", DataContentType.JSON⟩ (some "X") false).2
      = Except.error "Data source 'X' already defined; use override=True" ∧
    dictGet
        (add_source [("X", ⟨"X", "u", "n", DataContentType.XML⟩)]
          ⟨"X", "u2", "n2", DataContentType.JSON⟩ (some "X") true).1 "X"
      = some ⟨"X", "u2", "n2", DataContentType.JSON⟩ := by
  have h := add_source_duplicate_and_override
    [("X", ⟨"X", "u", "n", DataContentType.XML⟩)]
    ⟨"X", "u2", "n2", DataContentType.JSON⟩ "X" (by decide) (by decide)
  refine ⟨h.1, ?_⟩
  rw [h.2.1]
  exact h.2.2

/-- C10: whenever `add_source` fails (its only failure is the
duplicate-source error), the registry is returned unchanged — the
duplicate check precedes any mutation. -/
theorem add_source_error_leaves_registry (reg : List (String × SourceCfg))
    (cfg : SourceCfg) (id : Option String) (override : Bool) (e : String)
    (h : (add_source reg cfg id override).2 = Except.error e) :
    (add_source reg cfg id override).1 = reg := by
  cases id with
  | none =>
    by_cases hc : (override = false ∧ (dictGet reg cfg.id).isSome)
    · simp [add_source, hc]
    · simp [add_source, hc] at h
  | some s =>
    by_cases hs : s = ""
    · subst hs
      by_cases hc : (override = false ∧ (dictGet reg cfg.id).isSome)
      · simp [add_source, hc]
      · simp [add_source, hc] at h
    · by_cases hc : (override = false ∧ (dictGet reg s).isSome)
      · simp [add_source, hs, hc]
      · simp [add_source, hs, hc] at h

/-- C10 witness: the failing duplicate registration of id `X` leaves
the one-entry registry as it was. -/
theorem add_source_error_leaves_registry_witness :
    (add_source [("X", ⟨"X", "u", "n", DataContentType.XML⟩)]
        ⟨"X", "u2", "n2", DataContentType.JSON⟩ (some "X") false).1
      = [("X", ⟨"X", "u", "n", DataContentType.XML⟩)] :=
  add_source_error_leaves_registry
    [("X", ⟨"X", "u", "n", DataContentType.XML⟩)]
    ⟨"X", "u2", "n2", DataContentType.JSON⟩ (some "X") false
    "Data source 'X' already defined; use override=True" (by rfl)

end SdmxSource

namespace SdmxUrn

/-- `takeWhile` over a list of characters satisfying the predicate
followed by a stopping character returns exactly the prefix. -/
theorem takeWhile_append_stop {p : Char → Bool} (l : List Char) (c : Char)
    (r : List Char) (hl : ∀ x ∈ l, p x = true) (hc : p c = false) :
    (l ++ c :: r).takeWhile p = l := by
  induction l with
  | nil => simp [List.takeWhile, hc]
  | cons a as ih =>
    have ha : p a = true := hl a (by simp)
    simp only [List.cons_append, List.takeWhile_cons, ha, if_true]
    rw [ih fun x hx => hl x (by simp [hx])]

/-- `dropWhile` under the same conditions returns the stopping character
and the rest. -/
theorem dropWhile_append_stop {p : Char → Bool} (l : List Char) (c : Char)
    (r : List Char) (hl : ∀ x ∈ l, p x = true) (hc : p c = false) :
    (l ++ c :: r).dropWhile p = c :: r := by
  induction l with
  | nil => simp [List.dropWhile, hc]
  | cons a as ih =>
    have ha : p a = true := hl a (by simp)
    simp only [List.cons_append, List.dropWhile_cons, ha, if_true]
    exact ih fun x hx => hl x (by simp [hx])

/-- Stripping a prefix from itself followed by a rest yields the rest. -/
theorem stripPrefixList_append (p r : List Char) :
    stripPrefixList p (p ++ r) = some r := by
  induction p with
  | nil => rfl
  | cons a as ih => simp [stripPrefixList, ih]

/-- Parsing a body assembled from grammar-conforming segments recovers
exactly those segments. -/
theorem parseBody_segments (pkg kls A I V tail : List Char)
    (hpkg : ∀ c ∈ pkg, (c != '.') = true)
    (hkls : ∀ c ∈ kls, (c != '=') = true)
    (hA : ∀ c ∈ A, (c != ':' && c != '(' && c != '.') = true)
    (hI : ∀ c ∈ I, (c != '(' && c != '.') = true)
    (hV : ∀ c ∈ V, (c != ')') = true) :
    parseBody
        (pkg ++ ('.' :: (kls ++ ('=' ::
          (A ++ (':' :: (I ++ ('(' :: (V ++ (')' :: tail))))))))))
      = match tail with
        | [] => some ⟨⟨pkg⟩, ⟨kls⟩, some ⟨A⟩, ⟨I⟩, some ⟨V⟩, none⟩
        | '.' :: item => some ⟨⟨pkg⟩, ⟨kls⟩, some ⟨A⟩, ⟨I⟩, some ⟨V⟩, some ⟨item⟩⟩
        | _ => none := by
  have e1 := takeWhile_append_stop pkg '.'
    (kls ++ ('=' :: (A ++ (':' :: (I ++ ('(' :: (V ++ (')' :: tail)))))))) hpkg
    (by decide)
  have e2 := dropWhile_append_stop pkg '.'
    (kls ++ ('=' :: (A ++ (':' :: (I ++ ('(' :: (V ++ (')' :: tail)))))))) hpkg
    (by decide)
  have e3 := takeWhile_append_stop kls '='
    (A ++ (':' :: (I ++ ('(' :: (V ++ (')' :: tail)))))) hkls (by decide)
  have e4 := dropWhile_append_stop kls '='
    (A ++ (':' :: (I ++ ('(' :: (V ++ (')' :: tail)))))) hkls (by decide)
  have e5 := takeWhile_append_stop A ':'
    (I ++ ('(' :: (V ++ (')' :: tail)))) hA (by decide)
  have e6 := dropWhile_append_stop A ':'
    (I ++ ('(' :: (V ++ (')' :: tail)))) hA (by decide)
  have e7 := takeWhile_append_stop I '(' (V ++ (')' :: tail)) hI (by decide)
  have e8 := dropWhile_append_stop I '(' (V ++ (')' :: tail)) hI (by decide)
  have e9 := takeWhile_append_stop V ')' tail hV (by decide)
  have e10 := dropWhile_append_stop V ')' tail hV (by decide)
  simp only [parseBody, e1, e2, e3, e4, e5, e6, e7, e8, e9, e10]
  rfl

/-- `urn_match` succeeds on any string whose character data is the URN
prefix followed by a parsable body. -/
theorem urn_match_of_data (s : String) (body : List Char) (f : URNFields)
    (hdata : s.data = urnPrefixText.data ++ body)
    (hb : parseBody body = some f) :
    urn_match s = Except.ok f := by
  simp [urn_match, hdata, stripPrefixList_append, hb]

/-- Character-level decomposition of the fixed head of a `Code` URN. -/
theorem data_head_code :
    "urn:sdmx:org.sdmx.infomodel.codelist.Code=".data
      = urnPrefixText.data ++ ("codelist".data ++ ('.' :: ("Code".data ++ ['=']))) := by
  decide

/-- Character-level decomposition of the fixed head of a `Code` URN. -/
theorem data_head_codelist :
    "urn:sdmx:org.sdmx.infomodel.codelist.Codelist=".data
      = urnPrefixText.data
        ++ ("codelist".data ++ ('.' :: ("Codelist".data ++ ['=']))) := by
  decide

theorem data_colon : ":".data = [':'] := by decide
theorem data_lparen : "(".data = ['('] := by decide
theorem data_rparen : ")".data = [')'] := by decide
theorem data_rparen_dot : ").".data = [')', '.'] := by decide

/-- The URN `make` produces for a code under a fully maintained
codelist. -/
theorem make_code_ok (c : Code) (cl : Codelist) (m : Agency) (v : String)
    (hp : c.parent = some cl) (hm : cl.maintainer = some m)
    (hv : cl.version = some v) :
    make (SdmxObject.code c) true = Except.ok
      ("urn:sdmx:org.sdmx.infomodel.codelist.Code=" ++ (m.id
        ++ (":" ++ (cl.id ++ ("(" ++ (v ++ (")." ++ c.id))))))) := by
  simp [make, hp, hm, hv, packageClassSegment, versionSegment,
    String.append_assoc]

/-- The URN `make` produces for a fully maintained codelist. -/
theorem make_codelist_ok (cl : Codelist) (m : Agency) (v : String)
    (hm : cl.maintainer = some m) (hv : cl.version = some v) :
    make (SdmxObject.codelist cl) true = Except.ok
      ("urn:sdmx:org.sdmx.infomodel.codelist.Codelist=" ++ (m.id
        ++ (":" ++ (cl.id ++ ("(" ++ (v ++ ")")))))) := by
  simp [make, hm, hv, packageClassSegment, versionSegment, String.append_assoc]

/-- C8: whenever `make obj strict=true` succeeds — with the object's
identifier fields conforming to the URN grammar's character
restrictions — parsing the produced URN reconstructs the same agency
identifier, artifact id, version and item id as the object's. -/
theorem urn_match_make_roundtrip (obj : SdmxObject) (s : String)
    (hpl : objPlain obj) (hmk : make obj true = Except.ok s) :
    ∃ f : URNFields, urn_match s = Except.ok f ∧
      f.agency = objAgencyId obj ∧ some f.id = objArtifactId obj ∧
      f.version = objVersion obj ∧ f.item_id = objItemId obj := by
  cases obj with
  | code c =>
    have hclp := hpl
    cases hp : c.parent with
    | none => simp [make, hp] at hmk
    | some cl =>
      obtain ⟨hclid, hmnt, hver⟩ := hclp cl hp
      cases hm : cl.maintainer with
      | none => simp [make, hp, hm] at hmk
      | some m =>
        cases hv : cl.version with
        | none => simp [make, hp, hm, hv] at hmk
        | some v =>
          rw [make_code_ok c cl m v hp hm hv] at hmk
          have hs := Except.ok.inj hmk
          subst hs
          refine ⟨⟨"codelist", "Code", some m.id, cl.id, some v, some c.id⟩,
            ?_, ?_, ?_, ?_, ?_⟩
          · apply urn_match_of_data _
              ("codelist".data ++ ('.' :: ("Code".data ++ ('=' ::
                (m.id.data ++ (':' :: (cl.id.data ++ ('(' ::
                  (v.data ++ (')' :: ('.' :: c.id.data)))))))))))
            · simp [String.data_append, List.append_assoc, data_head_code,
                data_colon, data_lparen, data_rparen_dot, urnPrefixText]
            · have hseg := parseBody_segments "codelist".data "Code".data
                m.id.data cl.id.data v.data ('.' :: c.id.data)
                (by decide) (by decide)
                (hmnt m hm) hclid (hver v hv)
              simpa using hseg
          · simp [objAgencyId, hp, hm]
          · simp [objArtifactId, hp]
          · simp [objVersion, hp, hv]
          · simp [objItemId]
  | codelist cl =>
    obtain ⟨hclid, hmnt, hver⟩ := hpl
    cases hm : cl.maintainer with
    | none => simp [make, hm] at hmk
    | some m =>
      cases hv : cl.version with
      | none => simp [make, hm, hv] at hmk
      | some v =>
        rw [make_codelist_ok cl m v hm hv] at hmk
        have hs := Except.ok.inj hmk
        subst hs
        refine ⟨⟨"codelist", "Codelist", some m.id, cl.id, some v, none⟩,
          ?_, ?_, ?_, ?_, ?_⟩
        · apply urn_match_of_data _
            ("codelist".data ++ ('.' :: ("Codelist".data ++ ('=' ::
              (m.id.data ++ (':' :: (cl.id.data ++ ('(' ::
                (v.data ++ (')' :: ([] : List Char)))))))))))
          · simp [String.data_append, List.append_assoc, data_head_codelist,
              data_colon, data_lparen, data_rparen, urnPrefixText]
          · have hseg := parseBody_segments "codelist".data "Codelist".data
              m.id.data cl.id.data v.data []
              (by decide) (by decide)
              (hmnt m hm) hclid (hver v hv)
            simpa using hseg
        · simp [objAgencyId, hm]
        · simp [objArtifactId]
        · simp [objVersion, hv]
        · simp [objItemId]

/-- C8 witness: the codelist `BAZ:FOO(1.2.3)` of `test_urn.py`
round-trips through `make` and `urn_match`. -/
theorem urn_match_make_roundtrip_witness :
    ∃ f : URNFields,
      urn_match "urn:sdmx:org.sdmx.infomodel.codelist.Codelist=BAZ:FOO(1.2.3)"
        = Except.ok f ∧
      f.agency = objAgencyId
        (SdmxObject.codelist ⟨"FOO", some ⟨"BAZ"⟩, some "1.2.3", ["BAR"]⟩) ∧
      some f.id = objArtifactId
        (SdmxObject.codelist ⟨"FOO", some ⟨"BAZ"⟩, some "1.2.3", ["BAR"]⟩) ∧
      f.version = objVersion
        (SdmxObject.codelist ⟨"FOO", some ⟨"BAZ"⟩, some "1.2.3", ["BAR"]⟩) ∧
      f.item_id = objItemId
        (SdmxObject.codelist ⟨"FOO", some ⟨"BAZ"⟩, some "1.2.3", ["BAR"]⟩) :=
  urn_match_make_roundtrip
    (SdmxObject.codelist ⟨"FOO", some ⟨"BAZ"⟩, some "1.2.3", ["BAR"]⟩) _
    ⟨by unfold idOk; decide,
     fun m hm => by cases hm; unfold agencyOk; decide,
     fun v hv => by cases hv; unfold versionOk; decide⟩
    rfl

end SdmxUrn
